import Mathlib

/-!
Verification of the Zed extension adapter in `src/zed-extension/src/lib.rs`.

The Rust source defines a unit struct `CassandraOrmExtension` implementing
the host `zed::Extension` trait with two operations:

  * `fn new() -> Self` — zero-argument constructor returning `Self`;
  * `fn language_server_command(&mut self, _language_server_id, _worktree)
       -> Result<zed::Command>` — ignores both inputs and returns
    `Ok(Command { command: "node",
                  args: ["node_modules/.bin/typescript-language-server",
                         "--stdio"],
                  env: Default::default() })`.

We embed this shallowly: `zed::Command` becomes a Lean structure,
`Result<T>` (which is `Result<T, String>` in the zed extension API) becomes
`Except String`, the opaque host types `LanguageServerId` and `Worktree`
become type parameters, and the `&mut self` receiver becomes explicit state
passing (the function returns the resulting state alongside the result).
-/

/-- Embedding of `zed::Command`: an executable name, an ordered argument
list, and environment-variable overrides (a list of name/value pairs,
`Default::default()` being the empty list). -/
structure Command where
  command : String
  args : List String
  env : List (String × String)
deriving Repr, DecidableEq

/-- Embedding of the unit struct `CassandraOrmExtension` (no fields). -/
structure CassandraOrmExtension
deriving Repr, DecidableEq

/-- Embedding of `fn new() -> Self { Self }`. -/
def CassandraOrmExtension.new : CassandraOrmExtension :=
  CassandraOrmExtension.mk

/-- The launch specification literally written in the Rust source body of
`language_server_command`. -/
def fixedCommand : Command :=
  { command := "node"
    args := ["node_modules/.bin/typescript-language-server", "--stdio"]
    env := [] }

/-- Embedding of `fn language_server_command(&mut self, ...)`.

The mutable receiver is modelled by returning the post-call extension state
together with the `Result`.  Both the language-server identity and the
worktree are opaque host values, so they are taken at arbitrary types; the
body binds neither (they are `_`-prefixed in the source). -/
def language_server_command {α β : Type} (ext : CassandraOrmExtension)
    (_language_server_id : α) (_worktree : β) :
    Except String Command × CassandraOrmExtension :=
  (Except.ok
    { command := "node"
      args := ["node_modules/.bin/typescript-language-server", "--stdio"]
      env := [] },
   ext)

/-- A call history on one extension instance: perform the listed
invocations in order, threading the (mutable-receiver) state through, and
collect every result. -/
def runCalls {α β : Type} :
    CassandraOrmExtension → List (α × β) →
      List (Except String Command) × CassandraOrmExtension
  | ext, [] => ([], ext)
  | ext, (i, w) :: rest =>
    let step := language_server_command ext i w
    let tail := runCalls step.2 rest
    (step.1 :: tail.1, tail.2)

/-- C1: for every language-server identity and every worktree context (at
arbitrary types, hence including degenerate/empty values),
`language_server_command` returns success with the launch specification
whose executable is `"node"`, whose argument list is exactly
`["node_modules/.bin/typescript-language-server", "--stdio"]`, and whose
environment-override mapping is empty. -/
theorem language_server_command_fixed_ok {α β : Type}
    (ext : CassandraOrmExtension) (i : α) (w : β) :
    (language_server_command ext i w).1 =
      Except.ok
        { command := "node"
          args := ["node_modules/.bin/typescript-language-server", "--stdio"]
          env := [] } :=
  rfl

/-- C2: `language_server_command` is infallible: every invocation returns
the `Except.ok` variant; the error variant is never produced. -/
theorem language_server_command_infallible {α β : Type}
    (ext : CassandraOrmExtension) (i : α) (w : β) :
    ((language_server_command ext i w).1).isOk = true :=
  rfl

/-- C3: `language_server_command` is a context-independent constant
function: any two invocations, with arbitrary (possibly different)
instances, identities and worktree contexts at arbitrary types, return
structurally equal results. -/
theorem language_server_command_constant {α₁ β₁ α₂ β₂ : Type}
    (ext₁ ext₂ : CassandraOrmExtension) (i₁ : α₁) (w₁ : β₁)
    (i₂ : α₂) (w₂ : β₂) :
    (language_server_command ext₁ i₁ w₁).1 =
      (language_server_command ext₂ i₂ w₂).1 :=
  rfl

/-- C4: across any call history on one extension instance — any list of
invocations with identical or differing inputs — every single invocation
yields the same fixed output value, independent of how many calls preceded
it: the result trace is the constant trace of `Except.ok fixedCommand`. -/
theorem runCalls_constant_trace {α β : Type}
    (ext : CassandraOrmExtension) (calls : List (α × β)) :
    (runCalls ext calls).1 = calls.map (fun _ => Except.ok fixedCommand) := by
  induction calls generalizing ext with
  | nil => rfl
  | cons c rest ih =>
    cases c with
    | mk i w => simp [runCalls, language_server_command, fixedCommand, ih]

/-- C5: the constructor `new` takes no arguments and never fails: it is a
total zero-argument definition that returns the extension instance
`CassandraOrmExtension.mk`. -/
theorem new_total :
    CassandraOrmExtension.new = CassandraOrmExtension.mk :=
  rfl

/-- C6: `language_server_command` leaves all state unchanged: the
extension instance returned as the post-call state equals the instance
before the call, and the whole result consists only of that unchanged
state and the returned value (the embedding has no other state to touch:
no globals, no files). -/
theorem language_server_command_frame {α β : Type}
    (ext : CassandraOrmExtension) (i : α) (w : β) :
    (language_server_command ext i w).2 = ext ∧
      language_server_command ext i w =
        ((language_server_command ext i w).1, ext) :=
  ⟨rfl, rfl⟩

/-- C7: for every input, the returned argument list has exactly two
elements; the first is the vendored-binary relative path
`node_modules/.bin/typescript-language-server`, which does not begin with
a path separator; the second is the flag `--stdio`. -/
theorem language_server_command_args_shape {α β : Type}
    (ext : CassandraOrmExtension) (i : α) (w : β) :
    ∃ a₀ a₁ : String,
      (language_server_command ext i w).1 =
        Except.ok { command := "node", args := [a₀, a₁], env := [] } ∧
      [a₀, a₁].length = 2 ∧
      a₀ = "node_modules/.bin/typescript-language-server" ∧
      a₀.data.head? ≠ some '/' ∧
      a₁ = "--stdio" :=
  ⟨"node_modules/.bin/typescript-language-server", "--stdio",
    rfl, rfl, rfl, by decide, rfl⟩

/-- C8: both operations are straight-line and non-recursive: each
evaluates, on every input, to an explicit closed value by pure unfolding —
`language_server_command` to the fixed ok-result paired with the unchanged
state, and `new` to the unique instance — so the embeddings are total and
terminate without any well-founded-recursion obligation. -/
theorem operations_straight_line {α β : Type}
    (ext : CassandraOrmExtension) (i : α) (w : β) :
    language_server_command ext i w = (Except.ok fixedCommand, ext) ∧
      CassandraOrmExtension.new = CassandraOrmExtension.mk :=
  ⟨rfl, rfl⟩

/-- C9: no invocation can panic: the bodies contain no partial operation,
so the embedding has no panic/error branch at all — in particular the
result is never the error variant, for any error message. -/
theorem language_server_command_no_panic {α β : Type}
    (ext : CassandraOrmExtension) (i : α) (w : β) (e : String) :
    (language_server_command ext i w).1 ≠ Except.error e := by
  simp [language_server_command]

/-- C10: the extension type is a unit struct with no fields, so every
value of the type equals `CassandraOrmExtension.new`; in particular any
two values — hence any two results of the constructor — are structurally
equal, and every reachable extension state equals the initial state. -/
theorem extension_unique (a b : CassandraOrmExtension) :
    a = CassandraOrmExtension.new ∧ a = b := by
  cases a; cases b; exact ⟨rfl, rfl⟩
